import Mathlib

/-!
Shallow embedding of the scroll-synchronized animation orchestration layer of
the pour-haus-concrete site: horizontal takeover geometry
(src/scripts/horizontal-scroll.js), the velocity-driven motion proxy and
reveal triggers (src/scripts/animations.js), the hero shader initialization
and render loop (src/scripts/hero-shader.js), and the resize debounce.
Geometry and animation values are modelled over ℚ (JS numbers on these code
paths stay exact in ℚ: only +, -, *, /, min, max, abs, round occur).
-/

namespace PourHaus

/-! ### Horizontal takeover geometry (horizontal-scroll.js, initDesktopScroll) -/

/-- `getScrollAmount = () => -(track.scrollWidth - window.innerWidth)`:
the horizontal translation target of the track. -/
def getScrollAmount (trackScrollWidth innerWidth : ℚ) : ℚ :=
  -(trackScrollWidth - innerWidth)

/-- The pinned trigger's vertical span, from
`end: () => "+=" + (track.scrollWidth - window.innerWidth)` with
`start: "top top"` and `pin: true`. -/
def pinIntervalLength (trackScrollWidth innerWidth : ℚ) : ℚ :=
  trackScrollWidth - innerWidth

/-- Modelled from the spec: the scrub mapping of the external GSAP
ScrollTrigger library (not part of this repository's sources). For a scrubbed
tween `gsap.to(track, \x7bx: getScrollAmount, ease: "none"\x7d)` starting at
x = 0, the track's horizontal offset at scrub progress `p ∈ [0,1]` is the
target times the progress. -/
def trackOffset (trackScrollWidth innerWidth p : ℚ) : ℚ :=
  getScrollAmount trackScrollWidth innerWidth * p

/-! ### EffectProxy recurrence (animations.js, initVelocityBlur) -/

/-- One frame of the smoothed-value carrier:
`current += (target - current) * decayRate`. -/
def proxyStep (decayRate target current : ℚ) : ℚ :=
  current + (target - current) * decayRate

/-- The proxy value after `n` frames with a constant target, starting from 0. -/
def proxyIter (decayRate target : ℚ) : ℕ → ℚ
  | 0 => 0
  | n + 1 => proxyStep decayRate target (proxyIter decayRate target n)

/-! ### Velocity-driven motion effect (animations.js, initVelocityBlur) -/

/-- `Math.max(-2, Math.min(scrollVelocity * 0.15, 2))`: the per-frame target
skew computed from the scroll velocity. -/
def targetSkew (scrollVelocity : ℚ) : ℚ :=
  max (-2) (min (scrollVelocity * (3 / 20)) 2)

/-- The per-frame effect on the motion targets' inline style: either a skew
transform is written, or the inline transform is cleared. -/
inductive StyleWrite where
  | setSkew (deg : ℚ)
  | clearTransform
  deriving DecidableEq

/-- One tick of the `gsap.ticker` callback of `initVelocityBlur`: updates
`motionProxy.skew` by the EffectProxy recurrence with decay 0.12, then writes
`skewY(...)` only when `Math.abs(motionProxy.skew) > 0.01`, otherwise clears
the transform. -/
def motionFrame (scrollVelocity skew : ℚ) : ℚ × StyleWrite :=
  (proxyStep (3 / 25) (targetSkew scrollVelocity) skew,
   if 1 / 100 < |proxyStep (3 / 25) (targetSkew scrollVelocity) skew| then
     .setSkew (proxyStep (3 / 25) (targetSkew scrollVelocity) skew)
   else .clearTransform)

/-! ### Hero shader initialization (hero-shader.js, initHeroShader) -/

/-- Observable effects of `initHeroShader`: how many canvas elements were
created, whether one was inserted into the document, and whether a cleanup
handle was returned. -/
structure ShaderInitResult where
  canvasesCreated : ℕ
  canvasInserted : Bool
  handleReturned : Bool
  deriving DecidableEq

/-- `initHeroShader` guard sequence: the reduced-motion check returns `null`
first, before any `document.createElement("canvas")`; then the missing-hero
check; then a test canvas probes WebGL support (created but never inserted);
on success a second canvas is created and inserted into the hero. -/
def initHeroShader (reducedMotion heroPresent webglSupported : Bool) :
    ShaderInitResult :=
  if reducedMotion then ⟨0, false, false⟩
  else if !heroPresent then ⟨0, false, false⟩
  else if !webglSupported then ⟨1, false, false⟩
  else ⟨2, true, true⟩

/-- The shape of one scroll-triggered reveal animation. -/
structure RevealAnim where
  scrollTriggered : Bool
  initialOpacity : ℚ
  fadesToOpacity : ℚ
  fadeDuration : ℚ
  usesBlur : Bool
  uses3DRotation : Bool
  deriving DecidableEq

/-- `initReducedMotionAnimations` (animations.js): each `[data-reveal]`
element is set to opacity 0 and given a ScrollTrigger whose onEnter runs
`gsap.to(el, \x7bopacity: 1, duration: 0.3\x7d)` — opacity only, fixed
duration, no blur filter and no rotation. -/
def reducedMotionReveal : RevealAnim :=
  { scrollTriggered := true
    initialOpacity := 0
    fadesToOpacity := 1
    fadeDuration := 3 / 10
    usesBlur := false
    uses3DRotation := false }

/-! ### Gallery viewport policy (horizontal-scroll.js, initHorizontalScroll) -/

/-- What drives the mobile gallery's dot position indicator. -/
inductive IndicatorSource where
  | containerScrollOffset
  | scrollEngine
  deriving DecidableEq

/-- Observable setup performed by `initMobileScroll`: native overflow-x
scrolling, `scroll-snap-align: start` and `scroll-snap-stop: always` on each
card, and a dot indicator updated from `container.scrollLeft` inside the
container's scroll listener. -/
structure MobileSetup where
  nativeOverflowScroll : Bool
  cardSnapAlign : Bool
  cardSnapStop : Bool
  dotIndicator : Bool
  indicatorSource : IndicatorSource
  deriving DecidableEq

/-- The concrete setup built by `initMobileScroll`. -/
def mobileScrollSetup : MobileSetup :=
  { nativeOverflowScroll := true
    cardSnapAlign := true
    cardSnapStop := true
    dotIndicator := true
    indicatorSource := .containerScrollOffset }

/-- Which path `initHorizontalScroll` takes. -/
inductive GalleryMode where
  | hijack
  | native (setup : MobileSetup)
  deriving DecidableEq

/-- `window.matchMedia("(max-width: 768px)").matches`. -/
def isMobileViewport (innerWidth : ℚ) : Bool :=
  innerWidth ≤ 768

/-- `initHorizontalScroll` branch: `if (isMobile || isTouch)` take the native
path (`initMobileScroll`), else the scroll-hijack path (`initDesktopScroll`). -/
def chooseGalleryMode (innerWidth : ℚ) (isTouch : Bool) : GalleryMode :=
  if isMobileViewport innerWidth || isTouch then .native mobileScrollSetup
  else .hijack

/-- `Math.round(scrollLeft / cardWidth)` with `cardWidth = card + 32` gap:
the active dot index, computed from the container's scroll offset.
`Math.round x = ⌊x + 1/2⌋` (JS rounds half toward +∞). -/
def activeDotIndex (scrollLeft cardOffsetWidth : ℚ) : ℤ :=
  ⌊scrollLeft / (cardOffsetWidth + 32) + 1 / 2⌋

/-! ### Hero shader render loop (hero-shader.js, render) -/

/-- Per-frame outcome of one `render()` call: whether the next animation
frame was scheduled, whether the draw call ran, and the value written to the
time uniform when it was written. -/
structure FrameOutcome where
  scheduledNext : Bool
  drew : Bool
  timeUniform : Option ℕ
  deriving DecidableEq

/-- One `render()` tick: when `!isVisible` it still calls
`requestAnimationFrame(render)` and returns without drawing; when visible it
writes `u_time = Date.now() - startTime` (wall-clock elapsed), draws, and
schedules the next frame. `now` and `startTime` are `Date.now()` values. -/
def heroShaderRenderStep (isVisible : Bool) (startTime now : ℕ) : FrameOutcome :=
  if !isVisible then
    { scheduledNext := true, drew := false, timeUniform := none }
  else
    { scheduledNext := true, drew := true, timeUniform := some (now - startTime) }

/-! ### Reveal trigger state machine (animations.js, initRevealAnimations) -/

/-- A trigger's position relative to its scroll region. -/
inductive TriggerState where
  | before
  | active
  | after
  deriving DecidableEq

/-- The callbacks a trigger can fire on a scroll tick. -/
inductive TriggerEvent where
  | onEnter
  | onLeave
  | onEnterBack
  | onLeaveBack
  deriving DecidableEq

/-- Modelled from the spec: the crossing semantics of the external GSAP
ScrollTrigger library (not part of this repository's sources), per §4.2 —
onEnter fires the instant position passes startOffset moving forward while
state is Before; onLeaveBack fires the instant position recedes past
startOffset while Active; symmetric at endOffset when present. Evaluated by
scroll-position comparison each tick; crossing both offsets in one tick
fires both edges in scroll order. `initRevealAnimations` registers its
triggers with a start offset only (endOffset = none). -/
def triggerStep (startOffset : ℚ) (endOffset : Option ℚ) (st : TriggerState)
    (pos : ℚ) : TriggerState × List TriggerEvent :=
  match st, endOffset with
  | .before, some e =>
      if startOffset ≤ pos then
        if e ≤ pos then (.after, [.onEnter, .onLeave])
        else (.active, [.onEnter])
      else (.before, [])
  | .before, none =>
      if startOffset ≤ pos then (.active, [.onEnter]) else (.before, [])
  | .active, some e =>
      if e ≤ pos then (.after, [.onLeave])
      else if pos < startOffset then (.before, [.onLeaveBack])
      else (.active, [])
  | .active, none =>
      if pos < startOffset then (.before, [.onLeaveBack]) else (.active, [])
  | .after, some e =>
      if pos < e then
        if pos < startOffset then (.before, [.onEnterBack, .onLeaveBack])
        else (.active, [.onEnterBack])
      else (.after, [])
  | .after, none => (.after, [])

/-- Run the trigger over a sequence of per-tick scroll positions, collecting
the fired callbacks in order. -/
def triggerRun (S : ℚ) (E : Option ℚ) :
    TriggerState → List ℚ → TriggerState × List TriggerEvent
  | st, [] => (st, [])
  | st, p :: ps =>
      let r := triggerStep S E st p
      let rest := triggerRun S E r.1 ps
      (rest.1, r.2 ++ rest.2)

/-! ### Resize debounce (horizontal-scroll.js, initDesktopScroll) -/

/-- The `setTimeout` delay of the resize handler, in ms. -/
def debounceDelay : ℕ := 250

/-- The resize listener: each tick runs `clearTimeout(resizeTimeout)` and
re-arms the timer `debounceDelay` later; a pending timer whose deadline
arrives before the next tick fires `ScrollTrigger.refresh()`. Given the
sorted resize-tick times, returns the times at which refresh runs. -/
def debounceFires : List ℕ → List ℕ
  | [] => []
  | [t] => [t + debounceDelay]
  | t :: t' :: rest =>
      if t + debounceDelay ≤ t' then
        (t + debounceDelay) :: debounceFires (t' :: rest)
      else debounceFires (t' :: rest)

/-- The DOM measurements the pinned trigger depends on. -/
structure Geometry where
  trackScrollWidth : ℚ
  innerWidth : ℚ
  deriving DecidableEq

/-- Modelled from the spec: with `invalidateOnRefresh: true` and `end` given
as a function, the external ScrollTrigger's `refresh()` re-evaluates the pin
span from the geometry measured at refresh time. -/
def refreshedPinEnd (g : Geometry) : ℚ :=
  pinIntervalLength g.trackScrollWidth g.innerWidth

/-! ### Desktop gallery progress counter (horizontal-scroll.js, onUpdate) -/

/-- `Math.round(self.progress * (totalCards - 1)) + 1`, the number shown by
the `.current` span of the scroll counter. `Math.round x = ⌊x + 1/2⌋`. -/
def counterCurrent (progress : ℚ) (totalCards : ℕ) : ℤ :=
  ⌊progress * ((totalCards : ℚ) - 1) + 1 / 2⌋ + 1

end PourHaus

namespace PourHaus

/-! ### Theorems -/

/-- C1: for track width W and viewport width V with W > V, the pin interval
has length exactly W − V, and the track's horizontal offset is
−(W − V)·progress — 0 at progress 0 and −(W − V) at progress 1. -/
theorem desktop_takeover_geometry (W V p : ℚ) (hWV : V < W) :
    pinIntervalLength W V = W - V ∧
    0 < pinIntervalLength W V ∧
    trackOffset W V p = -((W - V) * p) ∧
    trackOffset W V 0 = 0 ∧
    trackOffset W V 1 = -(W - V) := by
  refine ⟨rfl, by simpa [pinIntervalLength] using hWV, ?_, ?_, ?_⟩
  · simp only [trackOffset, getScrollAmount]; ring
  · simp [trackOffset, getScrollAmount]
  · simp only [trackOffset, getScrollAmount]; ring

/-- Witness for C1 at W = 3000, V = 1200, p = 1/2. -/
theorem desktop_takeover_geometry_witness :
    pinIntervalLength 3000 1200 = 3000 - 1200 ∧
    0 < pinIntervalLength 3000 1200 ∧
    trackOffset 3000 1200 (1 / 2) = -((3000 - 1200) * (1 / 2)) ∧
    trackOffset 3000 1200 0 = 0 ∧
    trackOffset 3000 1200 1 = -(3000 - 1200) :=
  desktop_takeover_geometry 3000 1200 (1 / 2) (by norm_num)

/-- C3: the geometry computation is NOT clamped. With a 500px-wide track and
an 800px viewport, the pin interval is −300 (negative) and the applied
horizontal offset target is +300, contradicting the required clamp to zero. -/
theorem pin_interval_not_clamped :
    pinIntervalLength 500 800 = -300 ∧
    pinIntervalLength 500 800 < 0 ∧
    getScrollAmount 500 800 = 300 ∧
    trackOffset 500 800 1 = 300 := by
  norm_num [pinIntervalLength, getScrollAmount, trackOffset]

/-- C5: with decay rate 0 < r ≤ 1 and constant target T, the proxy value
after N frames is exactly T·(1−(1−r)^N), and the distance to the target
never grows from one frame to the next (the sequence never diverges). -/
theorem effectProxy_closed_form (r T : ℚ) (hr0 : 0 < r) (hr1 : r ≤ 1) (N : ℕ) :
    proxyIter r T N = T * (1 - (1 - r) ^ N) ∧
    |T - proxyIter r T (N + 1)| ≤ |T - proxyIter r T N| := by
  have closed : ∀ n : ℕ, proxyIter r T n = T * (1 - (1 - r) ^ n) := by
    intro n
    induction n with
    | zero => simp [proxyIter]
    | succ k ih =>
      simp only [proxyIter, proxyStep, ih]
      ring
  refine ⟨closed N, ?_⟩
  have step : T - proxyIter r T (N + 1) = (1 - r) * (T - proxyIter r T N) := by
    simp only [proxyIter, proxyStep]
    ring
  rw [step, abs_mul]
  have h0 : (0 : ℚ) ≤ 1 - r := by linarith
  have h1 : |1 - r| ≤ 1 := by
    rw [abs_of_nonneg h0]; linarith
  calc |1 - r| * |T - proxyIter r T N|
      ≤ 1 * |T - proxyIter r T N| :=
        mul_le_mul_of_nonneg_right h1 (abs_nonneg _)
    _ = |T - proxyIter r T N| := one_mul _

/-- Witness for C5 at r = 1/2, T = 3, N = 2. -/
theorem effectProxy_closed_form_witness :
    proxyIter (1 / 2) 3 2 = 3 * (1 - (1 - 1 / 2) ^ 2) ∧
    |(3 : ℚ) - proxyIter (1 / 2) 3 (2 + 1)| ≤ |(3 : ℚ) - proxyIter (1 / 2) 3 2| :=
  effectProxy_closed_form (1 / 2) 3 (by norm_num) (by norm_num) 2

/-- C6: each frame's target skew is clamp(velocity·0.15, −2, 2); the applied
value follows it by the EffectProxy recurrence with decay 0.12; a skew style
write happens only when the applied value exceeds the 0.01 visibility
threshold, otherwise the transform is cleared; and once the proxy has settled
at zero with zero velocity, the frame writes no skew transform. -/
theorem velocity_motion_frame (v s : ℚ) :
    targetSkew v = max (-2) (min (v * (3 / 20)) 2) ∧
    (motionFrame v s).1 = proxyStep (3 / 25) (targetSkew v) s ∧
    (1 / 100 < |(motionFrame v s).1| →
      (motionFrame v s).2 = .setSkew (motionFrame v s).1) ∧
    (|(motionFrame v s).1| ≤ 1 / 100 →
      (motionFrame v s).2 = .clearTransform) ∧
    motionFrame 0 0 = (0, .clearTransform) := by
  refine ⟨rfl, rfl, ?_, ?_, ?_⟩
  · intro h
    simp only [motionFrame] at h ⊢
    rw [if_pos h]
  · intro h
    simp only [motionFrame] at h ⊢
    rw [if_neg (not_lt.mpr h)]
  · simp [motionFrame, proxyStep, targetSkew]

/-- Witness for C6 at v = 100, s = 0: target clamps to 2, the proxy moves to
6/25, and the frame writes that skew since it exceeds the threshold. -/
theorem velocity_motion_frame_witness :
    targetSkew 100 = max (-2) (min (100 * (3 / 20)) 2) ∧
    (motionFrame 100 0).1 = proxyStep (3 / 25) (targetSkew 100) 0 ∧
    (1 / 100 < |(motionFrame 100 0).1| →
      (motionFrame 100 0).2 = .setSkew (motionFrame 100 0).1) ∧
    (|(motionFrame 100 0).1| ≤ 1 / 100 →
      (motionFrame 100 0).2 = .clearTransform) ∧
    motionFrame 0 0 = (0, .clearTransform) :=
  velocity_motion_frame 100 0

/-- C4: with the reduced-motion preference set, `initHeroShader` returns
before creating or inserting any canvas, whatever the other conditions; and
the reduced-motion reveals are still scroll-triggered but are a single
fixed-duration (0.3s) opacity fade with no blur and no 3D rotation. -/
theorem reduced_motion_no_canvas_single_fade :
    (∀ heroPresent webglSupported : Bool,
        initHeroShader true heroPresent webglSupported =
          { canvasesCreated := 0, canvasInserted := false,
            handleReturned := false }) ∧
    reducedMotionReveal.scrollTriggered = true ∧
    reducedMotionReveal.initialOpacity = 0 ∧
    reducedMotionReveal.fadesToOpacity = 1 ∧
    reducedMotionReveal.fadeDuration = 3 / 10 ∧
    reducedMotionReveal.usesBlur = false ∧
    reducedMotionReveal.uses3DRotation = false := by
  refine ⟨fun h w => rfl, rfl, rfl, rfl, rfl, rfl, rfl⟩

/-- C7: scroll is hijacked exactly when the viewport is wider than the 768px
threshold and the device is not touch-capable; otherwise the native path is
taken, with per-card snap alignment and a dot indicator driven by the
container's scroll offset rather than the Scroll Engine. -/
theorem gallery_viewport_policy (w : ℚ) (touch : Bool) :
    (chooseGalleryMode w touch = .hijack ↔ (768 < w ∧ touch = false)) ∧
    ((w ≤ 768 ∨ touch = true) →
      chooseGalleryMode w touch = .native mobileScrollSetup) ∧
    mobileScrollSetup.nativeOverflowScroll = true ∧
    mobileScrollSetup.cardSnapAlign = true ∧
    mobileScrollSetup.cardSnapStop = true ∧
    mobileScrollSetup.dotIndicator = true ∧
    mobileScrollSetup.indicatorSource = .containerScrollOffset := by
  refine ⟨?_, ?_, rfl, rfl, rfl, rfl, rfl⟩
  · rcases le_or_lt w 768 with hw | hw
    · have hm : isMobileViewport w = true := by
        simp [isMobileViewport, hw]
      cases touch <;> simp [chooseGalleryMode, hm, not_lt.mpr hw]
    · have hm : isMobileViewport w = false := by
        simp [isMobileViewport, not_le.mpr hw]
      cases touch <;> simp [chooseGalleryMode, hm, hw]
  · intro h
    rcases h with hw | ht
    · simp [chooseGalleryMode, isMobileViewport, hw]
    · simp [chooseGalleryMode, ht]

/-- Witness for C7 at a 375px-wide touch viewport: the native path is taken. -/
theorem gallery_viewport_policy_witness :
    chooseGalleryMode 375 true = .native mobileScrollSetup :=
  (gallery_viewport_policy 375 true).2.1 (Or.inr rfl)

/-- C9 evaluation: the hero shader's `render()` still schedules the next
animation frame when the page is hidden (it only skips the draw), frames are
scheduled on every tick regardless of visibility, and the time uniform is the
wall-clock elapsed `Date.now() - startTime`, not a delta-time accumulator:
visible at now = 99500 with startTime = 500 writes u_time = 99000 however
long the page was hidden in between. -/
theorem heroShader_render_step_behavior :
    heroShaderRenderStep false 0 1000 =
      { scheduledNext := true, drew := false, timeUniform := none } ∧
    (∀ (vis : Bool) (t0 now : ℕ),
      (heroShaderRenderStep vis t0 now).scheduledNext = true) ∧
    heroShaderRenderStep true 500 99500 =
      { scheduledNext := true, drew := true, timeUniform := some 99000 } := by
  refine ⟨rfl, ?_, rfl⟩
  intro vis t0 now
  cases vis <;> rfl

/-- C10: for scrub progress p ∈ [0,1] and n ≥ 1 cards, the displayed value
round(p·(n−1)) + 1 lies in [1, n]; in particular it is never 0, so the
two-digit zero-padded counter never shows 00 and never exceeds the total. -/
theorem counter_display_in_range (p : ℚ) (n : ℕ)
    (hp0 : 0 ≤ p) (hp1 : p ≤ 1) (hn : 1 ≤ n) :
    1 ≤ counterCurrent p n ∧ counterCurrent p n ≤ (n : ℤ) ∧
    counterCurrent p n ≠ 0 := by
  have hcast : (1 : ℚ) ≤ (n : ℚ) := by exact_mod_cast hn
  have hm : (0 : ℚ) ≤ (n : ℚ) - 1 := by linarith
  have hprod0 : 0 ≤ p * ((n : ℚ) - 1) := mul_nonneg hp0 hm
  have hprod1 : p * ((n : ℚ) - 1) ≤ (n : ℚ) - 1 := by
    calc p * ((n : ℚ) - 1) ≤ 1 * ((n : ℚ) - 1) :=
          mul_le_mul_of_nonneg_right hp1 hm
      _ = (n : ℚ) - 1 := one_mul _
  have hlow : (0 : ℤ) ≤ ⌊p * ((n : ℚ) - 1) + 1 / 2⌋ := by
    apply Int.le_floor.mpr
    push_cast
    linarith
  have hhigh : ⌊p * ((n : ℚ) - 1) + 1 / 2⌋ < (n : ℤ) := by
    apply Int.floor_lt.mpr
    push_cast
    linarith
  unfold counterCurrent
  refine ⟨by omega, by omega, by omega⟩

/-- Witness for C10 at p = 1/2 over 3 cards: the counter shows card 2. -/
theorem counter_display_in_range_witness :
    1 ≤ counterCurrent (1 / 2) 3 ∧ counterCurrent (1 / 2) 3 ≤ ((3 : ℕ) : ℤ) ∧
    counterCurrent (1 / 2) 3 ≠ 0 :=
  counter_display_in_range (1 / 2) 3 (by norm_num) (by norm_num) (by norm_num)

/-- A start-only trigger that is Active stays Active and fires nothing while
the scroll position stays at or past the start offset. -/
lemma triggerRun_active_stay (S : ℚ) (ps : List ℚ) (h : ∀ x ∈ ps, S ≤ x) :
    triggerRun S none .active ps = (.active, []) := by
  induction ps with
  | nil => rfl
  | cons p ps ih =>
    have hp : S ≤ p := h p (List.mem_cons_self p ps)
    have hrest := ih fun x hx => h x (List.mem_cons_of_mem p hx)
    simp [triggerRun, triggerStep, not_lt.mpr hp, hrest]

/-- A start-only trigger that is Before stays Before and fires nothing while
the scroll position stays short of the start offset. -/
lemma triggerRun_before_stay (S : ℚ) (ps : List ℚ) (h : ∀ x ∈ ps, x < S) :
    triggerRun S none .before ps = (.before, []) := by
  induction ps with
  | nil => rfl
  | cons p ps ih =>
    have hp : p < S := h p (List.mem_cons_self p ps)
    have hrest := ih fun x hx => h x (List.mem_cons_of_mem p hx)
    simp [triggerRun, triggerStep, not_le.mpr hp, hrest]

/-- A start-only trigger never moves into the After state. -/
lemma triggerStep_ne_after (S : ℚ) (st : TriggerState) (p : ℚ)
    (h : st ≠ .after) : (triggerStep S none st p).1 ≠ .after := by
  cases st with
  | before => simp only [triggerStep]; split <;> simp
  | active => simp only [triggerStep]; split <;> simp
  | after => exact absurd rfl h

/-- C2: for a start-only trigger as registered by `initRevealAnimations`,
scrolling forward through the start offset from Before fires onEnter exactly
once and nothing else, however many frames continue past the offset; from
Active, receding past the offset fires onLeaveBack exactly once and nothing
else; and the state stays on the Before↔Active edge, never reaching After —
callbacks fire once per transition edge, not once per frame. -/
theorem reveal_trigger_edge_semantics (S : ℚ) (fwd back : List ℚ)
    (hfwd : ∀ x ∈ fwd, S ≤ x) (hback : ∀ x ∈ back, x < S)
    (hfne : fwd ≠ []) (hbne : back ≠ []) :
    triggerRun S none .before fwd = (.active, [.onEnter]) ∧
    triggerRun S none .active back = (.before, [.onLeaveBack]) ∧
    (∀ (ps : List ℚ) (st : TriggerState), st ≠ .after →
      (triggerRun S none st ps).1 ≠ .after) := by
  refine ⟨?_, ?_, ?_⟩
  · cases fwd with
    | nil => exact absurd rfl hfne
    | cons p ps =>
      have hp : S ≤ p := hfwd p (List.mem_cons_self p ps)
      have hrest := triggerRun_active_stay S ps
        fun x hx => hfwd x (List.mem_cons_of_mem p hx)
      simp [triggerRun, triggerStep, hp, hrest]
  · cases back with
    | nil => exact absurd rfl hbne
    | cons p ps =>
      have hp : p < S := hback p (List.mem_cons_self p ps)
      have hrest := triggerRun_before_stay S ps
        fun x hx => hback x (List.mem_cons_of_mem p hx)
      simp [triggerRun, triggerStep, hp, hrest]
  · intro ps
    induction ps with
    | nil => intro st h; simpa [triggerRun] using h
    | cons p ps ih =>
      intro st h
      have hstep := triggerStep_ne_after S st p h
      simpa [triggerRun] using ih _ hstep

/-- Witness for C2: start offset 10, forward frames [12, 15], backward
frames [5, 3]. -/
theorem reveal_trigger_edge_semantics_witness :
    triggerRun 10 none .before [12, 15] = (.active, [.onEnter]) ∧
    triggerRun 10 none .active [5, 3] = (.before, [.onLeaveBack]) ∧
    (∀ (ps : List ℚ) (st : TriggerState), st ≠ .after →
      (triggerRun 10 none st ps).1 ≠ .after) :=
  reveal_trigger_edge_semantics 10 [12, 15] [5, 3]
    (by intro x hx; simp only [List.mem_cons, List.not_mem_nil, or_false] at hx
        rcases hx with rfl | rfl <;> norm_num)
    (by intro x hx; simp only [List.mem_cons, List.not_mem_nil, or_false] at hx
        rcases hx with rfl | rfl <;> norm_num)
    (by simp) (by simp)

/-- The last element of a list with two or more elements ignores the head. -/
lemma getLastD_cons_cons (a b d : ℕ) (l : List ℕ) :
    (a :: b :: l).getLastD d = (b :: l).getLastD d := by
  simp [List.getLastD]

/-- C8: over any burst of resize ticks — consecutive ticks less than the
250ms settle window apart — the debounced handler fires refresh exactly
once, 250ms after the last tick, not once per tick; and refresh re-measures
the pin span from the geometry current at refresh time. -/
theorem resize_debounce_once_per_settle (ts : List ℕ)
    (hb : ts.Chain' (fun a b => b < a + debounceDelay)) (hne : ts ≠ []) :
    (debounceFires ts).length = 1 ∧
    debounceFires ts = [ts.getLastD 0 + debounceDelay] ∧
    (∀ g : Geometry, refreshedPinEnd g = g.trackScrollWidth - g.innerWidth) := by
  have key : ∀ us : List ℕ,
      us.Chain' (fun a b => b < a + debounceDelay) → us ≠ [] →
      debounceFires us = [us.getLastD 0 + debounceDelay] := by
    intro us
    induction us with
    | nil => intro _ h; exact absurd rfl h
    | cons t rest ih =>
      intro hc _
      cases rest with
      | nil => rfl
      | cons t' rest' =>
        have h1 : t' < t + debounceDelay := (List.chain'_cons.mp hc).1
        have h2 := (List.chain'_cons.mp hc).2
        have hrest := ih h2 (by simp)
        rw [getLastD_cons_cons]
        simpa [debounceFires, not_le.mpr h1] using hrest
  have h := key ts hb hne
  exact ⟨by rw [h]; rfl, h, fun g => rfl⟩

/-- Witness for C8: the burst [0, 100, 300] (gaps 100 and 200, both inside
the settle window) yields exactly one refresh, at 550. -/
theorem resize_debounce_once_per_settle_witness :
    (debounceFires [0, 100, 300]).length = 1 ∧
    debounceFires [0, 100, 300] = [[0, 100, 300].getLastD 0 + debounceDelay] ∧
    (∀ g : Geometry, refreshedPinEnd g = g.trackScrollWidth - g.innerWidth) :=
  resize_debounce_once_per_settle [0, 100, 300]
    (by norm_num [List.chain'_cons, List.chain'_singleton, debounceDelay])
    (by simp)

end PourHaus
